import Mathlib

/-!
# Verification of the GazeTrackingCloud eye-tracking core (`eye_tracker.py`)

Shallow embedding of the gaze-event derivation pipeline of `EyeTracker`:
pupil localization (`get_eye_center`), gaze resolution (the inline midpoint
computation in `process_frame`), the stateful fixation/blink classifier
(`update_tracking_data` together with `is_fixation` / `detect_blink`), and the
session recorder (`save_session_data`, JSON serialization).

Modelling conventions:
* Python `float` timestamps and moments are modelled by `ℚ`; every comparison
  the theorems depend on is exact in binary floating point as well (integer
  squared distances, and threshold comparisons at values far from ties).
* Pixel coordinates are `Int`; Python `//` is `Int.fdiv` (floor division) and
  `int()` applied to a nonnegative quotient truncates toward zero.
* Python truthiness is modelled explicitly where it differs from an
  `Option.isSome` test: `not self.current_fixation_start` is true both for
  `None` and for the float `0.0`.
* Lists grow by `++ [x]`, matching Python's `append` order.
-/

/-- An eye bounding box `(x, y, w, h)` as produced by `detect_eyes`. -/
abbrev EyeRect := Int × Int × Int × Int

/-- One entry of `tracking_data['gaze_points']`: `{timestamp, x, y}`. -/
structure GazeSample where
  timestamp : ℚ
  x : Int
  y : Int
deriving DecidableEq, Repr

/-- One entry of `tracking_data['fixations']`:
`{start_time, end_time, x, y}`. -/
structure Fixation where
  start_time : ℚ
  end_time : ℚ
  x : Int
  y : Int
deriving DecidableEq, Repr

/-- One entry of `tracking_data['blinks']`: `{timestamp}`. -/
structure Blink where
  timestamp : ℚ
deriving DecidableEq, Repr

/-- Session metadata `tracking_data['metadata']`: `frame_count`, `detection_rate`,
`avg_pupil_size` (the latter two are initialized to 0 and never recomputed;
the persisted schema declares them as numbers). -/
structure Metadata where
  frame_count : Nat
  detection_rate : ℚ
  avg_pupil_size : ℚ
deriving DecidableEq, Repr

/-- The `self.tracking_data` dictionary. -/
structure TrackingData where
  session_start : String
  gaze_points : List GazeSample
  fixations : List Fixation
  blinks : List Blink
  metadata : Metadata
deriving DecidableEq, Repr

/-- The mutable state of one `EyeTracker` instance (the fields touched by the
classifier): `self.tracking_data`, `self.last_gaze_point`,
`self.current_fixation_start`, `self.frame_times`. -/
structure EyeTrackerState where
  tracking_data : TrackingData
  last_gaze_point : Option (Int × Int)
  current_fixation_start : Option ℚ
  frame_times : List ℚ
deriving DecidableEq, Repr

/-- The source constant `self.fixation_threshold = 30` (pixels). -/
def fixation_threshold : Int := 30

/-- The source constant `self.fixation_duration = 0.3` (seconds). -/
def fixation_duration : ℚ := 3 / 10

/-- The state right after `EyeTracker.__init__` (empty record lists, zeroed
metadata, no last gaze point, no open fixation window), parametrized by the
`datetime.now().isoformat()` string recorded as `session_start`. -/
def initial_state (session_start : String) : EyeTrackerState :=
  { tracking_data :=
      { session_start := session_start
        gaze_points := []
        fixations := []
        blinks := []
        metadata := { frame_count := 0, detection_rate := 0, avg_pupil_size := 0 } }
    last_gaze_point := none
    current_fixation_start := none
    frame_times := [] }

/-- Blink detection `detect_blink`: `len(eyes) < 2`. -/
def detect_blink (eyes : List EyeRect) : Bool :=
  decide (eyes.length < 2)

/-- Fixation test `is_fixation(current_point, last_point)`.  The source returns `False` when
`last_point` is falsy (`None`; a coordinate tuple is always truthy), otherwise
compares `sqrt(dx^2 + dy^2) < 30`.  For integer coordinates the IEEE-754
square root is exact or correctly rounded on the exact integer `dx^2 + dy^2`,
and `sqrt(d2) < 30` holds iff `d2 < 900`, which is the form used here. -/
def is_fixation (current_point : Int × Int) (last_point : Option (Int × Int)) : Bool :=
  match last_point with
  | none => false
  | some lp =>
      decide ((current_point.1 - lp.1) ^ 2 + (current_point.2 - lp.2) ^ 2
        < fixation_threshold ^ 2)

/-- Python truthiness of `self.current_fixation_start : Optional[float]`:
`None` and `0.0` are both falsy.  The source guards the fixation window with
`if not self.current_fixation_start:`, so a window whose recorded start time
is `0.0` is indistinguishable from no window at all. -/
def truthy_fixation_start : Option ℚ → Bool
  | none => false
  | some q => decide (q ≠ 0)

/-- The classifier `update_tracking_data(gaze_point, eyes, timestamp)`, the stateful
fixation/blink classifier.  Mirrors the source line by line:
if a gaze point is present, append a gaze sample; if `is_fixation`, either
open a window (`not self.current_fixation_start` — Python truthiness),
or, when the window's elapsed time reaches `fixation_duration`, append a
`Fixation` with the window's start and the *current* frame's coordinates
(without closing the window); a non-fixation frame resets the window; then
`last_gaze_point` is set.  Independently, a frame with fewer than two eyes
appends a `Blink`; `frame_count` and `frame_times` are updated on every
call. -/
def update_tracking_data (s : EyeTrackerState) (gaze_point : Option (Int × Int))
    (eyes : List EyeRect) (timestamp : ℚ) : EyeTrackerState :=
  let s1 :=
    match gaze_point with
    | none => s
    | some gp =>
      let sA := { s with tracking_data.gaze_points :=
                    s.tracking_data.gaze_points ++ [(⟨timestamp, gp.1, gp.2⟩ : GazeSample)] }
      let sB :=
        if is_fixation gp sA.last_gaze_point then
          if truthy_fixation_start sA.current_fixation_start = false then
            { sA with current_fixation_start := some timestamp }
          else
            match sA.current_fixation_start with
            | some cfs =>
                if fixation_duration ≤ timestamp - cfs then
                  { sA with tracking_data.fixations :=
                      sA.tracking_data.fixations ++
                        [(⟨cfs, timestamp, gp.1, gp.2⟩ : Fixation)] }
                else sA
            | none => sA
        else
          { sA with current_fixation_start := none }
      { sB with last_gaze_point := some gp }
  let s2 :=
    if detect_blink eyes then
      { s1 with tracking_data.blinks :=
          s1.tracking_data.blinks ++ [(⟨timestamp⟩ : Blink)] }
    else s1
  { s2 with
      tracking_data.metadata.frame_count := s2.tracking_data.metadata.frame_count + 1
      frame_times := s2.frame_times ++ [timestamp] }

/-- One call's inputs to `update_tracking_data`:
`(gaze_point, eyes, timestamp)`. -/
abbrev UpdateInput := Option (Int × Int) × List EyeRect × ℚ

/-- A sequence of `update_tracking_data` calls, left to right. -/
def run_updates (s : EyeTrackerState) (inputs : List UpdateInput) : EyeTrackerState :=
  inputs.foldl (fun st i => update_tracking_data st i.1 i.2.1 i.2.2) s

/-- The gaze-point computation inlined in `process_frame`:
`if len(eye_centers) == 2`, the componentwise midpoint with Python `//`
(floor division, `Int.fdiv`; the surrounding `int()` is the identity on an
int), otherwise no gaze point. -/
def resolve_gaze : List (Int × Int) → Option (Int × Int)
  | [c0, c1] => some (Int.fdiv (c0.1 + c1.1) 2, Int.fdiv (c0.2 + c1.2) 2)
  | _ => none

/-- The pupil-collection loop of `process_frame`: every detected eye box is
passed to `get_eye_center` (modelled abstractly by `loc`, since it depends on
the image) and the truthy results are appended in detection order.  A
coordinate tuple is always truthy in Python, so this is `filterMap`. -/
def collect_eye_centers (loc : EyeRect → Option (Int × Int))
    (eyes : List EyeRect) : List (Int × Int) :=
  eyes.filterMap loc

/-- Frame processing `process_frame` restricted to its tracking effect: detect eyes (given as
input, the detector being an external collaborator), collect pupil centers,
resolve the gaze point, and call `update_tracking_data` (with the gaze point
when exactly two centers were found, with `None` otherwise — both branches of
the source call `update_tracking_data`). -/
def process_frame (loc : EyeRect → Option (Int × Int)) (s : EyeTrackerState)
    (eyes : List EyeRect) (timestamp : ℚ) : EyeTrackerState :=
  update_tracking_data s (resolve_gaze (collect_eye_centers loc eyes)) eyes timestamp

/-- The spatial moments `m00, m10, m01` returned by `cv2.moments` (floats). -/
structure Moments where
  m00 : ℚ
  m10 : ℚ
  m01 : ℚ

/-- Python `max(contours, key=contourArea)` on the nonempty list `c :: cs`:
scan left to right, replacing the current best only on a strictly larger key
(so the first maximiser is kept). -/
def max_by_area (contourArea : α → ℚ) (c : α) (cs : List α) : α :=
  cs.foldl (fun best k => if contourArea best < contourArea k then k else best) c

/-- Python `int()` applied to a float/rational: truncation toward zero. -/
def truncInt (q : ℚ) : Int :=
  Int.tdiv q.num (q.den : Int)

/-- Pupil localization `get_eye_center(frame, eye_rect)`.  The image-processing pipeline
(grayscale, `equalizeHist`, Gaussian blur, Otsu inverse threshold,
`findContours`) is a sequence of OpenCV calls on the cropped region; its
output is abstracted as the contour list `contours` over an abstract contour
type `α`, with `contourArea` and `moments` the corresponding OpenCV
functions.  The control flow after `findContours` is mirrored exactly:
`if not contours: return None`; select the largest contour; `if M["m00"] == 0:
return None`; otherwise `cx = int(m10/m00)`, `cy = int(m01/m00)` and return
the centroid offset by the eye box's top-left corner `(x, y)`. -/
def get_eye_center (eye_rect : EyeRect) (contours : List α)
    (contourArea : α → ℚ) (moments : α → Moments) : Option (Int × Int) :=
  match contours with
  | [] => none
  | c :: cs =>
      let largest_contour := max_by_area contourArea c cs
      let M := moments largest_contour
      if M.m00 = 0 then none
      else
        let cx := truncInt (M.m10 / M.m00)
        let cy := truncInt (M.m01 / M.m00)
        some (eye_rect.1 + cx, eye_rect.2.1 + cy)

/-- A wall-clock instant, as consumed by `datetime.strftime`. -/
structure DateTime where
  year : Nat
  month : Nat
  day : Nat
  hour : Nat
  minute : Nat
  second : Nat
deriving DecidableEq, Repr

/-- Zero-pad a number to two digits (`%m`, `%d`, `%H`, `%M`, `%S`). -/
def pad2 (n : Nat) : String :=
  if n < 10 then "0" ++ toString n else toString n

/-- Zero-pad a year to four digits (`%Y`). -/
def pad4 (n : Nat) : String :=
  if n < 10 then "000" ++ toString n
  else if n < 100 then "00" ++ toString n
  else if n < 1000 then "0" ++ toString n
  else toString n

/-- Formatting `datetime.now().strftime('%Y%m%d_%H%M%S')`: the `YYYYMMDD_HHMMSS`
timestamp string embedded in every saved filename and returned by
`save_session_data`. -/
def strftime_timestamp (t : DateTime) : String :=
  pad4 t.year ++ pad2 t.month ++ pad2 t.day ++ "_" ++
    pad2 t.hour ++ pad2 t.minute ++ pad2 t.second

/-- JSON values as Python's `json` module reads and writes them
(`int` and `float` are distinct JSON-side number shapes for Python). -/
inductive Json where
  | null
  | str (s : String)
  | int (n : Int)
  | num (q : ℚ)
  | arr (xs : List Json)
  | obj (fields : List (String × Json))
deriving Repr

/-- Encoding (`json.dump`) of one gaze-sample dict. -/
def gazeSampleToJson (g : GazeSample) : Json :=
  .obj [("timestamp", .num g.timestamp), ("x", .int g.x), ("y", .int g.y)]

/-- Encoding (`json.dump`) of one fixation dict. -/
def fixationToJson (f : Fixation) : Json :=
  .obj [("start_time", .num f.start_time), ("end_time", .num f.end_time),
        ("x", .int f.x), ("y", .int f.y)]

/-- Encoding (`json.dump`) of one blink dict. -/
def blinkToJson (b : Blink) : Json :=
  .obj [("timestamp", .num b.timestamp)]

/-- The session document `json.dump(self.tracking_data, f)`: the document written by the `json`
branch of `save_session_data`, modelled by its JSON value tree (Python's
`json.dump`/`json.load` round-trip this tree verbatim). -/
def sessionToJson (td : TrackingData) : Json :=
  .obj [("session_start", .str td.session_start),
        ("gaze_points", .arr (td.gaze_points.map gazeSampleToJson)),
        ("fixations", .arr (td.fixations.map fixationToJson)),
        ("blinks", .arr (td.blinks.map blinkToJson)),
        ("metadata", .obj [("frame_count", .int (Int.ofNat td.metadata.frame_count)),
                           ("detection_rate", .num td.metadata.detection_rate),
                           ("avg_pupil_size", .num td.metadata.avg_pupil_size)])]

/-- Dictionary field access on a re-parsed JSON document. -/
def Json.getField (j : Json) (k : String) : Option Json :=
  match j with
  | .obj fields => fields.lookup k
  | _ => none

/-- Read a JSON value back as a string. -/
def Json.asStr : Json → Option String
  | .str s => some s
  | _ => none

/-- Read a JSON value back as a float/rational. -/
def Json.asNum : Json → Option ℚ
  | .num q => some q
  | _ => none

/-- Read a JSON value back as a nonnegative integer. -/
def Json.asNat : Json → Option Nat
  | .int (Int.ofNat n) => some n
  | _ => none

/-- Read a JSON value back as an integer. -/
def Json.asInt : Json → Option Int
  | .int n => some n
  | _ => none

/-- Read a JSON value back as an array. -/
def Json.asArr : Json → Option (List Json)
  | .arr xs => some xs
  | _ => none

/-- Decode every element of a re-parsed JSON array, failing if any element
fails. -/
def parseListJson (p : Json → Option α) : List Json → Option (List α)
  | [] => some []
  | j :: js => do
      let a ← p j
      let as ← parseListJson p js
      pure (a :: as)

/-- Decode one gaze-sample dict. -/
def parseGazeSample (j : Json) : Option GazeSample := do
  let t ← (← j.getField "timestamp").asNum
  let x ← (← j.getField "x").asInt
  let y ← (← j.getField "y").asInt
  pure ⟨t, x, y⟩

/-- Decode one fixation dict. -/
def parseFixation (j : Json) : Option Fixation := do
  let st ← (← j.getField "start_time").asNum
  let et ← (← j.getField "end_time").asNum
  let x ← (← j.getField "x").asInt
  let y ← (← j.getField "y").asInt
  pure ⟨st, et, x, y⟩

/-- Decode one blink dict. -/
def parseBlink (j : Json) : Option Blink := do
  let t ← (← j.getField "timestamp").asNum
  pure ⟨t⟩

/-- Decode the metadata dict. -/
def parseMetadata (j : Json) : Option Metadata := do
  let fc ← (← j.getField "frame_count").asNat
  let dr ← (← j.getField "detection_rate").asNum
  let ap ← (← j.getField "avg_pupil_size").asNum
  pure ⟨fc, dr, ap⟩

/-- Re-parse a persisted session document (`json.load` followed by the
schema's dictionary accesses). -/
def parseSession (j : Json) : Option TrackingData := do
  let ss ← (← j.getField "session_start").asStr
  let gs ← parseListJson parseGazeSample (← (← j.getField "gaze_points").asArr)
  let fs ← parseListJson parseFixation (← (← j.getField "fixations").asArr)
  let bs ← parseListJson parseBlink (← (← j.getField "blinks").asArr)
  let md ← parseMetadata (← j.getField "metadata")
  pure ⟨ss, gs, fs, bs, md⟩

/-- Contents of one file written by `save_session_data`: either the JSON
session document, or a CSV table given by its header and its rows (a
`DictWriter` row is the listed field values of one record). -/
inductive FileContent where
  | jsonFile (doc : Json)
  | csvFile (header : List String) (rows : List (List ℚ))

/-- One file written by `save_session_data`: path and contents. -/
structure SavedFile where
  name : String
  content : FileContent

/-- Persistence `save_session_data(format)`.  Reads the wall clock (`now`, passed
explicitly), formats the `YYYYMMDD_HHMMSS` timestamp, writes the session
document (`json`) or the two CSV tables (`csv`) — any other format string
matches neither branch and writes nothing — and returns the timestamp.  The
returned state is the tracker state after the call; the source only reads
`self.tracking_data`, so it is returned as received. -/
def save_session_data (data_dir : String) (s : EyeTrackerState) (now : DateTime)
    (format : String) : EyeTrackerState × List SavedFile × String :=
  let timestamp := strftime_timestamp now
  let files :=
    if format = "json" then
      [⟨data_dir ++ "/" ++ "eye_tracking_session_" ++ timestamp ++ ".json",
        .jsonFile (sessionToJson s.tracking_data)⟩]
    else if format = "csv" then
      [⟨data_dir ++ "/" ++ "gaze_points_" ++ timestamp ++ ".csv",
        .csvFile ["timestamp", "x", "y"]
          (s.tracking_data.gaze_points.map fun g => [g.timestamp, (g.x : ℚ), (g.y : ℚ)])⟩,
       ⟨data_dir ++ "/" ++ "fixations_" ++ timestamp ++ ".csv",
        .csvFile ["start_time", "end_time", "x", "y"]
          (s.tracking_data.fixations.map fun f =>
            [f.start_time, f.end_time, (f.x : ℚ), (f.y : ℚ)])⟩]
    else []
  (s, files, timestamp)

/-- A two-element eye list (no blink is recorded for these frames). -/
def two_eyes : List EyeRect := [((10 : Int), 10, 30, 30), ((60 : Int), 10, 30, 30)]

/-- C1 scenario, frame 1: gaze `(100,100)` at `t = 0`.  `last_gaze_point` is
`None`, so no fixation window opens. -/
def c1_s1 : EyeTrackerState :=
  update_tracking_data (initial_state "2024-01-01T00:00:00") (some (100, 100)) two_eyes 0

/-- C1 scenario, frame 2: gaze `(100,100)` again at `t = 0` (equal timestamps
are allowed; input timestamps are only required to be non-decreasing).  The
fixation window opens with start time `0`. -/
def c1_s2 : EyeTrackerState :=
  update_tracking_data c1_s1 (some (100, 100)) two_eyes 0

/-- C1 scenario, frame 3: gaze `(100,100)` at `t = 2/5 = 0.4`, with the window
open at start time `0` and elapsed time `0.4 ≥ 0.3`. -/
def c1_s3 : EyeTrackerState :=
  update_tracking_data c1_s2 (some (100, 100)) two_eyes (2 / 5)

/-- C2 scenario, frame 1: gaze `(100,100)` at `t = 0`, two eyes. -/
def c2_s1 : EyeTrackerState :=
  update_tracking_data (initial_state "2024-01-01T00:00:00") (some (100, 100)) two_eyes 0

/-- C2 scenario, frame 2: gaze `(105,102)` at `t = 1/10 = 0.1`, two eyes. -/
def c2_s2 : EyeTrackerState :=
  update_tracking_data c2_s1 (some (105, 102)) two_eyes (1 / 10)

/-- C2 scenario, frame 3: gaze `(103,99)` at `t = 7/20 = 0.35`, two eyes. -/
def c2_s3 : EyeTrackerState :=
  update_tracking_data c2_s2 (some (103, 99)) two_eyes (7 / 20)

/-- Three eye boxes for the C4 scenarios. -/
def c4_eyes : List EyeRect :=
  [((10 : Int), 10, 30, 30), ((60 : Int), 10, 30, 30), ((110 : Int), 10, 30, 30)]

/-- A pupil localizer that finds a center in every box (its top-left corner),
so three boxes yield three pupil centers. -/
def c4_loc_all (r : EyeRect) : Option (Int × Int) :=
  some (r.1, r.2.1)

/-- A pupil localizer that finds no center in the third box of `c4_eyes`. -/
def c4_loc_two (r : EyeRect) : Option (Int × Int) :=
  if r.1 = 110 then none else some (r.1, r.2.1)

/-- C5 witness inputs: two frames, each with two eyes. -/
def c5_inputs : List UpdateInput :=
  [(some (1, 2), two_eyes, 1), (none, two_eyes, 2)]

/-- C7 witness: contour area function on contours named by `Nat`. -/
def c7_area : Nat → ℚ := fun c => if c = 1 then 5 else 2

/-- C7 witness: moments function; contour `1` (the largest) has
`m00 = 1, m10 = 14, m01 = 6`. -/
def c7_moments : Nat → Moments := fun c => if c = 1 then ⟨1, 14, 6⟩ else ⟨0, 0, 0⟩

/-- A concrete wall-clock instant for the save witnesses. -/
def c8_now : DateTime := ⟨2024, 1, 2, 3, 4, 5⟩

/-- The single file the `json` branch writes in the C8 witness scenario. -/
def c8_file : SavedFile :=
  ⟨"data" ++ "/" ++ "eye_tracking_session_" ++ strftime_timestamp c8_now ++ ".json",
   .jsonFile (sessionToJson (initial_state "s").tracking_data)⟩

/-- One `update_tracking_data` call appends a blink record exactly when fewer
than two eyes were passed, independently of the gaze branch. -/
theorem update_blinks_eq (s : EyeTrackerState) (g : Option (Int × Int))
    (es : List EyeRect) (t : ℚ) :
    (update_tracking_data s g es t).tracking_data.blinks =
      s.tracking_data.blinks ++
        (if es.length < 2 then [(⟨t⟩ : Blink)] else []) := by
  cases g <;>
    simp only [update_tracking_data, detect_blink, decide_eq_true_eq] <;>
    (repeat (any_goals split)) <;>
    simp_all

/-- One `update_tracking_data` call appends a gaze sample exactly when a gaze
point is present, independently of the fixation and blink branches. -/
theorem update_gaze_points_eq (s : EyeTrackerState) (g : Option (Int × Int))
    (es : List EyeRect) (t : ℚ) :
    (update_tracking_data s g es t).tracking_data.gaze_points =
      s.tracking_data.gaze_points ++
        (match g with
          | none => []
          | some gp => [(⟨t, gp.1, gp.2⟩ : GazeSample)]) := by
  cases g <;>
    simp only [update_tracking_data, detect_blink, decide_eq_true_eq] <;>
    (repeat (any_goals split)) <;>
    simp_all

/-- One `update_tracking_data` call increments `frame_count` by one,
whatever the inputs. -/
theorem update_frame_count_eq (s : EyeTrackerState) (g : Option (Int × Int))
    (es : List EyeRect) (t : ℚ) :
    (update_tracking_data s g es t).tracking_data.metadata.frame_count =
      s.tracking_data.metadata.frame_count + 1 := by
  cases g <;>
    simp only [update_tracking_data, detect_blink, decide_eq_true_eq] <;>
    (repeat (any_goals split)) <;>
    simp_all

/-- Accumulated form of `update_blinks_eq` over a call sequence. -/
theorem run_updates_blinks_length (inputs : List UpdateInput) :
    ∀ s : EyeTrackerState,
      (run_updates s inputs).tracking_data.blinks.length =
        s.tracking_data.blinks.length +
          inputs.countP (fun i => decide (i.2.1.length < 2)) := by
  induction inputs with
  | nil => intro s; simp [run_updates]
  | cons i is ih =>
      intro s
      have h1 := ih (update_tracking_data s i.1 i.2.1 i.2.2)
      simp only [run_updates, List.foldl_cons] at h1 ⊢
      rw [h1, update_blinks_eq, List.countP_cons]
      by_cases h : i.2.1.length < 2 <;> simp [h] <;> omega

/-- Accumulated form of `update_frame_count_eq` over a call sequence. -/
theorem run_updates_frame_count (inputs : List UpdateInput) :
    ∀ s : EyeTrackerState,
      (run_updates s inputs).tracking_data.metadata.frame_count =
        s.tracking_data.metadata.frame_count + inputs.length := by
  induction inputs with
  | nil => intro s; simp [run_updates]
  | cons i is ih =>
      intro s
      have h1 := ih (update_tracking_data s i.1 i.2.1 i.2.2)
      simp only [run_updates, List.foldl_cons] at h1 ⊢
      rw [h1, update_frame_count_eq, List.length_cons]
      omega

/-- Decoding inverts encoding for one gaze-sample dict. -/
theorem parseGazeSample_roundtrip (g : GazeSample) :
    parseGazeSample (gazeSampleToJson g) = some g := rfl

/-- Decoding inverts encoding for one fixation dict. -/
theorem parseFixation_roundtrip (f : Fixation) :
    parseFixation (fixationToJson f) = some f := rfl

/-- Decoding inverts encoding for one blink dict. -/
theorem parseBlink_roundtrip (b : Blink) :
    parseBlink (blinkToJson b) = some b := rfl

/-- Decoding a mapped array element by element inverts the map, whenever the
element decoder inverts the element encoder. -/
theorem parseListJson_map (p : Json → Option α) (enc : α → Json)
    (h : ∀ a, p (enc a) = some a) :
    ∀ l : List α, parseListJson p (l.map enc) = some l
  | [] => rfl
  | a :: l => by
      simp only [List.map_cons, parseListJson, h a, parseListJson_map p enc h l]
      rfl

/-- Re-parsing the persisted JSON session document recovers the session
exactly. -/
theorem parseSession_roundtrip (td : TrackingData) :
    parseSession (sessionToJson td) = some td := by
  have hg := parseListJson_map parseGazeSample gazeSampleToJson
    parseGazeSample_roundtrip td.gaze_points
  have hf := parseListJson_map parseFixation fixationToJson
    parseFixation_roundtrip td.fixations
  have hb := parseListJson_map parseBlink blinkToJson
    parseBlink_roundtrip td.blinks
  show (do
    let gs ← parseListJson parseGazeSample (td.gaze_points.map gazeSampleToJson)
    let fs ← parseListJson parseFixation (td.fixations.map fixationToJson)
    let bs ← parseListJson parseBlink (td.blinks.map blinkToJson)
    pure (⟨td.session_start, gs, fs, bs, td.metadata⟩ : TrackingData)) = some td
  rw [hg, hf, hb]
  rfl

/-- C1: evaluation of the code at the failing input.  After two frames with
gaze `(100,100)` at `t = 0`, the fixation window is open with start time `0`,
the third frame at `t = 2/5` is a fixation, and the elapsed time `2/5 ≥ 3/10`
meets the duration threshold — yet the session still holds no `Fixation`
record (nothing was appended) and the open window was overwritten to `2/5`:
the truthiness guard `if not self.current_fixation_start:` treats the open
window with start `0.0` as absent, contradicting the claimed commit of
`{start_time: 0, end_time: 2/5, x, y}` with the window left unchanged. -/
theorem C1_zero_start_window_dropped :
    c1_s2.current_fixation_start = some 0 ∧
    is_fixation (100, 100) c1_s2.last_gaze_point = true ∧
    fixation_duration ≤ (2 / 5 : ℚ) - 0 ∧
    c1_s3.tracking_data.fixations = [] ∧
    c1_s3.current_fixation_start = some (2 / 5) := by
  norm_num [c1_s3, c1_s2, c1_s1, two_eyes, update_tracking_data, is_fixation,
    truthy_fixation_start, detect_blink, fixation_duration, fixation_threshold,
    initial_state]

/-- C2 counterexample: the spec's scenario (gaze `(100,100)` at `t = 0`,
`(105,102)` at `t = 1/10`, `(103,99)` at `t = 7/20`, two eyes per frame) does
NOT produce a fixation record — the fixation count is `0 < 1`, falsifying the
claimed "at least 1 fixation record": the window only opens on the second
frame (`is_fixation` needs a previous gaze point), so the elapsed time at
`t = 7/20` is `1/4 < 3/10`. -/
theorem C2_scenario_claim_false :
    c2_s3.tracking_data.gaze_points.length = 3 ∧
    c2_s3.tracking_data.blinks.length = 0 ∧
    c2_s3.tracking_data.fixations.length < 1 := by
  norm_num [c2_s3, c2_s2, c2_s1, two_eyes, update_tracking_data, is_fixation,
    truthy_fixation_start, detect_blink, fixation_duration, fixation_threshold,
    initial_state]

/-- C2 (amended): the scenario yields exactly 3 gaze samples, 0 blinks and 0
fixation records, with the fixation window open since `t = 1/10` (so the
elapsed time at `t = 7/20` is `1/4`, short of the `3/10` threshold). -/
theorem C2_scenario_exact :
    c2_s3.tracking_data.gaze_points.length = 3 ∧
    c2_s3.tracking_data.blinks = [] ∧
    c2_s3.tracking_data.fixations = [] ∧
    c2_s3.current_fixation_start = some (1 / 10) := by
  norm_num [c2_s3, c2_s2, c2_s1, two_eyes, update_tracking_data, is_fixation,
    truthy_fixation_start, detect_blink, fixation_duration, fixation_threshold,
    initial_state]

/-- The gaze resolver yields nothing unless exactly two centers are present. -/
theorem resolve_gaze_ne_two (cs : List (Int × Int)) (h : cs.length ≠ 2) :
    resolve_gaze cs = none := by
  match cs with
  | [] => rfl
  | [c] => rfl
  | [c0, c1] => exact absurd rfl h
  | c0 :: c1 :: c2 :: rest => rfl

/-- C3: gaze resolution returns `None` for 0, 1, or 3+ pupil centers, and for
exactly two centers returns the componentwise floor midpoint. -/
theorem C3_resolver_midpoint (cs : List (Int × Int)) :
    (cs.length = 0 ∨ cs.length = 1 ∨ 3 ≤ cs.length → resolve_gaze cs = none) ∧
    ∀ x1 y1 x2 y2 : Int, resolve_gaze [(x1, y1), (x2, y2)] =
      some (Int.fdiv (x1 + x2) 2, Int.fdiv (y1 + y2) 2) := by
  constructor
  · intro h
    apply resolve_gaze_ne_two
    omega
  · intro x1 y1 x2 y2
    rfl

/-- C3 witness: concrete evaluations for 0, 1, 3 and 2 pupil centers. -/
theorem C3_witness :
    resolve_gaze [] = none ∧
    resolve_gaze [((5 : Int), 6)] = none ∧
    resolve_gaze [((1 : Int), 1), (2, 4), (9, 9)] = none ∧
    resolve_gaze [((1 : Int), 1), (2, 4)] = some (1, 2) := by
  refine ⟨(C3_resolver_midpoint []).1 (by decide),
    (C3_resolver_midpoint [((5 : Int), 6)]).1 (by decide),
    (C3_resolver_midpoint [((1 : Int), 1), (2, 4), (9, 9)]).1 (by decide), ?_⟩
  rw [(C3_resolver_midpoint []).2 1 1 2 4]
  decide

/-- C4 counterexample: with three eye boxes all yielding pupil centers, the
gaze point is NOT computed at all (the source requires
`len(eye_centers) == 2`), contradicting the claim that it is still computed
from the first two centers. -/
theorem C4_three_centers_no_gaze :
    2 < c4_eyes.length ∧
    (collect_eye_centers c4_loc_all c4_eyes).length = 3 ∧
    resolve_gaze (collect_eye_centers c4_loc_all c4_eyes) = none ∧
    (process_frame c4_loc_all (initial_state "s") c4_eyes 0).tracking_data.gaze_points
      = [] := by
  refine ⟨by decide, by decide, by decide, ?_⟩
  have hres : resolve_gaze (collect_eye_centers c4_loc_all c4_eyes) = none := by decide
  simp only [process_frame, hres, update_gaze_points_eq]
  rfl

/-- C4 (amended): with more than two eye boxes detected, a gaze point is
computed exactly when the localization step yields exactly two pupil centers
across all boxes (in detection order), and then it is their floor midpoint;
it is never computed from more than two centers. -/
theorem C4_gaze_needs_exactly_two_centers (loc : EyeRect → Option (Int × Int))
    (eyes : List EyeRect) (_h : 2 < eyes.length) :
    ((collect_eye_centers loc eyes).length ≠ 2 →
      resolve_gaze (collect_eye_centers loc eyes) = none) ∧
    ∀ c0 c1, collect_eye_centers loc eyes = [c0, c1] →
      resolve_gaze (collect_eye_centers loc eyes) =
        some (Int.fdiv (c0.1 + c1.1) 2, Int.fdiv (c0.2 + c1.2) 2) := by
  constructor
  · intro hn
    exact resolve_gaze_ne_two _ hn
  · intro c0 c1 hcs
    rw [hcs]
    rfl

/-- C4 witness: three boxes, the third yielding no pupil center: the gaze
point is the floor midpoint of the two located centers. -/
theorem C4_witness :
    collect_eye_centers c4_loc_two c4_eyes = [((10 : Int), 10), (60, 10)] ∧
    resolve_gaze (collect_eye_centers c4_loc_two c4_eyes) = some (35, 10) := by
  have h := (C4_gaze_needs_exactly_two_centers c4_loc_two c4_eyes (by decide)).2
    ((10 : Int), 10) (60, 10) (by decide)
  refine ⟨by decide, ?_⟩
  rw [h]
  decide

/-- C5: over any call sequence from the initial state, the number of blink
records equals the number of calls whose eye list had fewer than two entries,
independently of gaze-point presence; in particular it is 0 when every call
had at least two eyes. -/
theorem C5_blink_count (inputs : List UpdateInput) (session_start : String) :
    (run_updates (initial_state session_start) inputs).tracking_data.blinks.length =
      inputs.countP (fun i => decide (i.2.1.length < 2)) ∧
    ((∀ i ∈ inputs, 2 ≤ i.2.1.length) →
      (run_updates (initial_state session_start) inputs).tracking_data.blinks.length
        = 0) := by
  have h := run_updates_blinks_length inputs (initial_state session_start)
  have h0 : (initial_state session_start).tracking_data.blinks.length = 0 := rfl
  rw [h0, Nat.zero_add] at h
  refine ⟨h, fun hall => ?_⟩
  rw [h]
  apply List.countP_eq_zero.mpr
  intro i hi
  simpa using Nat.not_lt.mpr (hall i hi)

/-- C5 witness: two frames with two eyes each produce no blink record. -/
theorem C5_witness :
    (run_updates (initial_state "s") c5_inputs).tracking_data.blinks.length = 0 :=
  (C5_blink_count c5_inputs "s").2 (by decide)

/-- C6: over any call sequence from the initial state, `frame_count` equals
the number of `update_tracking_data` calls made, regardless of gaze-point
presence or eye counts. -/
theorem C6_frame_count (inputs : List UpdateInput) (session_start : String) :
    (run_updates (initial_state session_start) inputs).tracking_data.metadata.frame_count
      = inputs.length := by
  have h := run_updates_frame_count inputs (initial_state session_start)
  have h0 : (initial_state session_start).tracking_data.metadata.frame_count = 0 := rfl
  rw [h0, Nat.zero_add] at h
  exact h

/-- C7: pupil localization returns `None` exactly when the contour list is
empty or the selected largest contour has `m00 = 0`; in every other case the
returning branch divides `m10` and `m01` by the nonzero `m00` and yields the
centroid offset by the eye box's top-left corner.  (In the embedding the
division is total; the theorem shows the dividing branch is reached only
under `m00 ≠ 0`.) -/
theorem C7_pupil_guard {α : Type} (rect : EyeRect) (contours : List α)
    (contourArea : α → ℚ) (moments : α → Moments) :
    (get_eye_center rect contours contourArea moments = none ↔
      contours = [] ∨ ∃ c cs, contours = c :: cs ∧
        (moments (max_by_area contourArea c cs)).m00 = 0) ∧
    ∀ c cs, contours = c :: cs →
      (moments (max_by_area contourArea c cs)).m00 ≠ 0 →
      get_eye_center rect contours contourArea moments =
        some (rect.1 + truncInt ((moments (max_by_area contourArea c cs)).m10 /
                (moments (max_by_area contourArea c cs)).m00),
              rect.2.1 + truncInt ((moments (max_by_area contourArea c cs)).m01 /
                (moments (max_by_area contourArea c cs)).m00)) := by
  constructor
  · cases contours with
    | nil => simp [get_eye_center]
    | cons c cs =>
        simp only [get_eye_center]
        split_ifs with hm
        · constructor
          · intro _
            exact Or.inr ⟨c, cs, rfl, hm⟩
          · intro _
            rfl
        · constructor
          · intro hcontra
            exact absurd hcontra (by simp)
          · rintro (hnil | ⟨c2, cs2, heq, hm2⟩)
            · exact absurd hnil (by simp)
            · obtain ⟨rfl, rfl⟩ : c = c2 ∧ cs = cs2 := by
                simpa using heq
              exact absurd hm2 hm
  · rintro c cs rfl hm
    simp only [get_eye_center]
    rw [if_neg hm]

/-- C7 witness: two contours, the second one larger with `m00 = 1`,
`m10 = 14`, `m01 = 6`, in the eye box at `(3, 4)`: the pupil center is
`(3 + 14, 4 + 6) = (17, 10)`. -/
theorem C7_witness :
    get_eye_center ((3 : Int), 4, 20, 20) [0, 1] c7_area c7_moments
      = some (17, 10) := by
  have h := (C7_pupil_guard ((3 : Int), 4, 20, 20) [0, 1] c7_area c7_moments).2 0 [1]
    rfl (by norm_num [max_by_area, c7_area, c7_moments])
  rw [h]
  norm_num [max_by_area, c7_area, c7_moments, truncInt]

/-- C8: saving is pure with respect to the session: the state after
`save_session_data` (in any format) is the state before, the returned string
is the wall clock formatted as `YYYYMMDD_HHMMSS`, and that string is embedded
in every generated filename. -/
theorem C8_save_is_pure (data_dir : String) (s : EyeTrackerState)
    (now : DateTime) (format : String) :
    (save_session_data data_dir s now format).1 = s ∧
    (save_session_data data_dir s now format).2.2 = strftime_timestamp now ∧
    ∀ f ∈ (save_session_data data_dir s now format).2.1,
      ∃ pre post, f.name = pre ++ (strftime_timestamp now ++ post) := by
  refine ⟨rfl, rfl, ?_⟩
  intro f hf
  simp only [save_session_data] at hf
  split_ifs at hf
  · simp only [List.mem_singleton] at hf
    subst hf
    exact ⟨data_dir ++ "/" ++ "eye_tracking_session_", ".json",
      String.append_assoc _ _ _⟩
  · simp only [List.mem_cons, List.mem_singleton, List.not_mem_nil, or_false] at hf
    rcases hf with hf | hf <;> subst hf
    · exact ⟨data_dir ++ "/" ++ "gaze_points_", ".csv", String.append_assoc _ _ _⟩
    · exact ⟨data_dir ++ "/" ++ "fixations_", ".csv", String.append_assoc _ _ _⟩
  · exact absurd hf (List.not_mem_nil f)

/-- C8 witness: with the `json` format at a concrete instant, the state is
returned unchanged and the (single) generated filename embeds the formatted
timestamp. -/
theorem C8_witness :
    (save_session_data "data" (initial_state "s") c8_now "json").1
        = initial_state "s" ∧
    ∃ pre post, c8_file.name = pre ++ (strftime_timestamp c8_now ++ post) :=
  ⟨(C8_save_is_pure "data" (initial_state "s") c8_now "json").1,
   (C8_save_is_pure "data" (initial_state "s") c8_now "json").2.2 c8_file
     (by simp [save_session_data, c8_file])⟩

/-- C9: JSON round-trip: serializing a session and re-parsing the document
succeeds and yields identical counts of gaze points, fixations and blinks and
identical scalar metadata fields. -/
theorem C9_json_roundtrip (td : TrackingData) :
    ∃ td2, parseSession (sessionToJson td) = some td2 ∧
      td2.gaze_points.length = td.gaze_points.length ∧
      td2.fixations.length = td.fixations.length ∧
      td2.blinks.length = td.blinks.length ∧
      td2.metadata.frame_count = td.metadata.frame_count ∧
      td2.metadata.detection_rate = td.metadata.detection_rate ∧
      td2.metadata.avg_pupil_size = td.metadata.avg_pupil_size :=
  ⟨td, parseSession_roundtrip td, rfl, rfl, rfl, rfl, rfl, rfl⟩

/-- C10: a format string other than `json` and `csv` matches neither branch:
no file is written, no error is raised, the state is unchanged, and the
formatted timestamp is still returned. -/
theorem C10_unknown_format (data_dir : String) (s : EyeTrackerState)
    (now : DateTime) (format : String) (h1 : format ≠ "json")
    (h2 : format ≠ "csv") :
    save_session_data data_dir s now format = (s, [], strftime_timestamp now) := by
  simp [save_session_data, h1, h2]

/-- C10 witness: saving with format `xml` writes nothing, keeps the state and
returns the timestamp. -/
theorem C10_witness :
    save_session_data "data" (initial_state "s") c8_now "xml"
      = (initial_state "s", [], strftime_timestamp c8_now) :=
  C10_unknown_format "data" (initial_state "s") c8_now "xml"
    (by decide) (by decide)
